import Mathlib

/-!
Shallow embedding of the AQI server (`src/app.py`) fallback/caching
data-acquisition pipeline, and proofs of the specification claims.

Modelling conventions:
* Python floats are modelled as `ℚ` (the decimal literals of the source are
  exact rationals; no claim depends on binary floating-point rounding).
* Unix timestamps and SQL integers are `ℤ`.
* `random.uniform(a, b)` draws are explicit parameters (a `Draws` record),
  with the range `a ≤ d ∧ d ≤ b` available as a hypothesis where needed.
* `datetime.datetime.fromtimestamp(t).hour` depends on the host timezone; it
  is modelled as `((t + off).fdiv 3600) % 24` for an arbitrary constant
  offset `off` (in seconds).
* Python exceptions are modelled with `Except String`; a `try/except`
  wrapper pattern-matches on the result.
* The SQLite table is modelled as a `List Row` (`Store`); `INSERT` appends,
  `SELECT ... ORDER BY timestamp` filters and merge-sorts.
-/

/-- One entry of a JSON `"list"`: `{"dt": ..., "main": {"aqi": ...},
"components": {...}}`.  Components are optional because rows are read back
with `item["components"].get(...)`. -/
structure Obs where
  dt : ℤ
  aqi : ℤ
  co : Option ℚ
  no : Option ℚ
  no2 : Option ℚ
  o3 : Option ℚ
  so2 : Option ℚ
  pm2_5 : Option ℚ
  pm10 : Option ℚ
  nh3 : Option ℚ
deriving Repr, DecidableEq

/-- The `"coord"` value of an envelope: either a JSON object with optional
`lat`/`lon` keys, or a JSON array (Python list/tuple) of numbers. -/
inductive Coord where
  | obj (lat lon : Option ℚ)
  | tup (elems : List ℚ)
deriving Repr, DecidableEq

/-- A Reading Envelope: the JSON dict exchanged with the upstream provider
and with callers.  `coord := none` models a dict in which the `"coord"` key
is absent; `location_name`/`source` are `none` when the key is absent. -/
structure Envelope where
  coord : Option Coord
  list : List Obs
  location_name : Option String
  source : Option String
deriving Repr, DecidableEq

/-- One row of the `aqi_data` table (the columns the claims mention;
`id` and `created_at` are generated by the database and never read back by
the core, so they are omitted). -/
structure Row where
  timestamp : ℤ
  latitude : ℚ
  longitude : ℚ
  aqi : ℤ
  pm2_5 : Option ℚ
  pm10 : Option ℚ
  co : Option ℚ
  no : Option ℚ
  no2 : Option ℚ
  o3 : Option ℚ
  so2 : Option ℚ
  nh3 : Option ℚ
  location_name : Option String
  source : String
deriving Repr, DecidableEq

/-- The persistent store: the `aqi_data` table as an insertion-ordered list. -/
abbrev Store := List Row

/-- Models `raw_coord = data.get("coord", {})`, then
`raw_coord.get("lat"), raw_coord.get("lon")` for a dict or
`raw_coord[0], raw_coord[1]` for a sequence (which raises `IndexError`
when the sequence has fewer than two elements). -/
def coordLatLon : Option Coord → Except String (Option ℚ × Option ℚ)
  | none => .ok (none, none)
  | some (.obj la lo) => .ok (la, lo)
  | some (.tup es) =>
    match es with
    | a :: b :: _ => .ok (some a, some b)
    | _ => .error "IndexError"

/-- One `cursor.execute(INSERT ...)` for one list item.  The `latitude` and
`longitude` columns are `NOT NULL`, so a missing coordinate raises. -/
def mkRow (la lo : Option ℚ) (name : Option String) (src : String)
    (o : Obs) : Except String Row :=
  match la, lo with
  | some la, some lo =>
    .ok { timestamp := o.dt, latitude := la, longitude := lo, aqi := o.aqi,
          pm2_5 := o.pm2_5, pm10 := o.pm10, co := o.co, no := o.no,
          no2 := o.no2, o3 := o.o3, so2 := o.so2, nh3 := o.nh3,
          location_name := name, source := src }
  | _, _ => .error "NOT NULL constraint failed"

/-- The `if "location_name" in data` override of `save_to_database`: the
name embedded in the envelope wins over the parameter.  Used to state which
name each inserted row carries. -/
def pickName (embedded fallback : Option String) : Option String :=
  match embedded with
  | some n => some n
  | none => fallback

/-- The body of `AQIService.save_to_database` inside its `try` (see the
doc comment below on `save_to_database`). -/
def saveRows (s : Store) (data : Envelope) (location_name : Option String) :
    Except String Store := do
  let name := pickName data.location_name location_name
  let (la, lo) ← coordLatLon data.coord
  let rows ← data.list.mapM (mkRow la lo name (data.source.getD "unknown"))
  pure (s ++ rows)

/-- Models `AQIService.save_to_database`: the `try/except` wrapper around
`saveRows`; any database error is caught and logged, leaving the store
unchanged. -/
def save_to_database (s : Store) (data : Envelope)
    (location_name : Option String) : Store :=
  match saveRows s data location_name with
  | .ok s2 => s2
  | .error _ => s

/-- The SQL `WHERE` clause of `get_historical_from_db`:
`latitude BETWEEN lat-0.1 AND lat+0.1 AND longitude BETWEEN lon-0.1 AND
lon+0.1 AND timestamp BETWEEN start AND end` (SQL `BETWEEN` is inclusive on
both ends). -/
def rowMatch (lat lon : ℚ) (start_time end_time : ℤ) (r : Row) : Bool :=
  decide (lat - 0.1 ≤ r.latitude ∧ r.latitude ≤ lat + 0.1 ∧
    lon - 0.1 ≤ r.longitude ∧ r.longitude ≤ lon + 0.1 ∧
    start_time ≤ r.timestamp ∧ r.timestamp ≤ end_time)

/-- Models `AQIService.get_historical_from_db`: the `SELECT ... WHERE ... ORDER BY
timestamp` query (the `try` body; connection failure is modelled separately
in `get_historical_from_db_conn`). -/
def get_historical_from_db (s : Store) (lat lon : ℚ)
    (start_time end_time : ℤ) : List Row :=
  (s.filter (rowMatch lat lon start_time end_time)).mergeSort
    (fun a b => a.timestamp ≤ b.timestamp)

/-- Version of `save_to_database` with the acquisition of the database connection
(`with get_db() as conn`) made explicit: if opening the connection raises,
the exception is caught by the same `except` clause and the store is
untouched. -/
def save_to_database_conn (conn : Except String Unit) (s : Store)
    (data : Envelope) (location_name : Option String) : Store :=
  match conn with
  | .error _ => s
  | .ok _ => save_to_database s data location_name

/-- Version of `get_historical_from_db` with the connection acquisition made explicit:
a connection failure is caught and the query returns `[]`. -/
def get_historical_from_db_conn (conn : Except String Unit) (s : Store)
    (lat lon : ℚ) (start_time end_time : ℤ) : List Row :=
  match conn with
  | .error _ => []
  | .ok _ => get_historical_from_db s lat lon start_time end_time

/-- The results of the `random.uniform` calls made by one invocation of
`FakeDataGenerator.generate_fake_data`, one field per call site. -/
structure Draws where
  base : ℚ
  dCO : ℚ
  dNO : ℚ
  dNO2 : ℚ
  dO3 : ℚ
  dSO2 : ℚ
  dPM25 : ℚ
  dPM10 : ℚ
  dNH3 : ℚ
deriving Repr, DecidableEq

/-- The ranges of the `random.uniform(a, b)` calls of
`generate_fake_data`: `random.uniform` returns a value in `[a, b]`. -/
def Draws.InRange (d : Draws) : Prop :=
  0.3 ≤ d.base ∧ d.base ≤ 0.8 ∧
  -50 ≤ d.dCO ∧ d.dCO ≤ 300 ∧
  0 ≤ d.dNO ∧ d.dNO ≤ 10 ∧
  0 ≤ d.dNO2 ∧ d.dNO2 ≤ 50 ∧
  -20 ≤ d.dO3 ∧ d.dO3 ≤ 40 ∧
  0 ≤ d.dSO2 ∧ d.dSO2 ≤ 20 ∧
  0 ≤ d.dPM25 ∧ d.dPM25 ≤ 75 ∧
  0 ≤ d.dPM10 ∧ d.dPM10 ≤ 150 ∧
  0 ≤ d.dNH3 ∧ d.dNH3 ≤ 10

instance (d : Draws) : Decidable d.InRange := by
  unfold Draws.InRange; infer_instance

/-- Python `int(q)`: truncation toward zero (for a non-negative argument
this is the floor). -/
def pyInt (q : ℚ) : ℤ := q.num / (q.den : ℤ)

/-- Models `datetime.datetime.fromtimestamp(t).hour` for a host whose UTC offset is
`off` seconds: the hour-of-day in `[0, 23]`. -/
def hourOf (t off : ℤ) : ℤ := ((t + off).fdiv 3600) % 24

/-- The location-based multiplier of `generate_fake_data`: `×1.5` within 1°
of Beijing, `×1.3` within 1° of Shanghai, otherwise unchanged.  (`b` is the
base pollution the factor multiplies.) -/
def baseAfterLocation (lat lon b : ℚ) : ℚ :=
  if |lat - 39.9042| < 1 ∧ |lon - 116.4074| < 1 then b * 1.5
  else if |lat - 31.2304| < 1 ∧ |lon - 121.4737| < 1 then b * 1.3
  else b

/-- The final `base_pollution` value of `generate_fake_data`: the uniform
draw, scaled by the location multiplier, scaled by the diurnal factor
`1 + 0.3 * |hour - 12| / 12`. -/
def basePollution (lat lon : ℚ) (t off : ℤ) (d : Draws) : ℚ :=
  baseAfterLocation lat lon d.base * (1 + 0.3 * |(hourOf t off : ℚ) - 12| / 12)

/-- Models `FakeDataGenerator.generate_fake_data(lat, lon, timestamp)` with the
timestamp supplied (the `timestamp is None` branch substitutes
`int(time.time())` before this point).  Returns `{"coord": [lat, lon],
"list": [one observation]}` with `aqi = min(5, max(1, int(1 + bp*4)))` and
each component an affine function of its own uniform draw and `bp`. -/
def generate_fake_data (lat lon : ℚ) (t off : ℤ) (d : Draws) : Envelope :=
  let bp := basePollution lat lon t off d
  { coord := some (.tup [lat, lon]),
    list := [{ dt := t,
               aqi := min 5 (max 1 (pyInt (1 + bp * 4))),
               co := some (200 + d.dCO * bp),
               no := some (d.dNO * bp),
               no2 := some (d.dNO2 * bp),
               o3 := some (60 + d.dO3 * bp),
               so2 := some (d.dSO2 * bp),
               pm2_5 := some (d.dPM25 * bp),
               pm10 := some (d.dPM10 * bp),
               nh3 := some (d.dNH3 * bp) }],
    location_name := none,
    source := none }

/-- The `while current_time <= end_time` loop of
`generate_bulk_historical_data`: one `generate_fake_data` call per hour
step, concatenating the (singleton) lists.  `ds i` is the draw record of
the `i`-th iteration. -/
def bulkLoop (lat lon : ℚ) (off : ℤ) (ds : ℕ → Draws)
    (end_time : ℤ) (current : ℤ) (i : ℕ) : List Obs :=
  if current ≤ end_time then
    (generate_fake_data lat lon current off (ds i)).list ++
      bulkLoop lat lon off ds end_time (current + 3600) (i + 1)
  else []
termination_by (end_time + 1 - current).toNat
decreasing_by simp_wf; omega

/-- Models `FakeDataGenerator.generate_bulk_historical_data(lat, lon, start, end)`:
the bulk range generator, tagged `"Synthetic Fallback"`. -/
def generate_bulk_historical_data (lat lon : ℚ) (start_time end_time : ℤ)
    (off : ℤ) (ds : ℕ → Draws) : Envelope :=
  { coord := some (.tup [lat, lon]),
    list := bulkLoop lat lon off ds end_time start_time 0,
    location_name := none,
    source := some "Synthetic Fallback" }

/-- The fixed location list (appears verbatim in `save_fake_data_to_file`,
`_get_location_name` and `populate_initial_historical_data`). -/
def knownLocations : List (ℚ × ℚ × String) :=
  [(40.7128, -74.0060, "New York"),
   (51.5074, -0.1278, "London"),
   (35.6762, 139.6503, "Tokyo"),
   (39.9042, 116.4074, "Beijing"),
   (31.2304, 121.4737, "Shanghai")]

/-- Models `AQIService._get_location_name`: linear scan of the fixed list, first
match within 0.1° on both coordinates wins. -/
def get_location_name (lat lon : ℚ) : Option String :=
  (knownLocations.find? fun loc =>
    decide (|lat - loc.1| < 0.1 ∧ |lon - loc.2.1| < 0.1)).map (fun loc => loc.2.2)

/-- Models `item["coord"][idx]` for a file item: raises `KeyError` if the
`"coord"` key is absent or holds a dict, `IndexError` if the array is too
short. -/
def coordAt : Option Coord → ℕ → Except String ℚ
  | none, _ => .error "KeyError"
  | some (.obj _ _), _ => .error "KeyError"
  | some (.tup es), i =>
    match es[i]? with
    | some v => .ok v
    | none => .error "IndexError"

/-- The `for item in fake_data` scan of `_get_fallback_data`: the first
item whose coordinates are within 1° of the request, or `none`. -/
def findSample (lat lon : ℚ) : List Envelope → Except String (Option Envelope)
  | [] => .ok none
  | it :: rest => do
    let a ← coordAt it.coord 0
    let b ← coordAt it.coord 1
    if |a - lat| < 1 ∧ |b - lon| < 1 then pure (some it)
    else findSample lat lon rest

/-- The `if location_name: result["location_name"] = location_name`
pattern of `_get_fallback_data`: attach the resolved name when present. -/
def tagWithName (name : Option String) (e : Envelope) : Envelope :=
  match name with
  | some n => { e with location_name := some n }
  | none => e

/-- The `try` body of `AQIService._get_fallback_data` (continued): resolve
the location name; scan the sample file when it exists; prefer the first
sample within 1°, tagging it; otherwise generate fresh data at the current
time `now`, tagging likewise. -/
def getFallbackCore (lat lon : ℚ) (file : Option (List Envelope))
    (now off : ℤ) (d : Draws) : Except String Envelope := do
  let name := get_location_name lat lon
  let fromFile ← match file with
    | some items => findSample lat lon items
    | none => pure none
  match fromFile with
  | some item =>
    pure { tagWithName name item with source := some "Synthetic Fallback" }
  | none =>
    pure { tagWithName name (generate_fake_data lat lon now off d) with
           source := some "Synthetic Fallback" }

/-- Models `AQIService._get_fallback_data`: the `try/except` wrapper; on any
exception a fresh sample (second draw record `d2`) is generated and tagged,
without a location name. -/
def get_fallback_data (lat lon : ℚ) (file : Option (List Envelope))
    (now off : ℤ) (d d2 : Draws) : Envelope :=
  match getFallbackCore lat lon file now off d with
  | .ok r => r
  | .error _ =>
    { generate_fake_data lat lon now off d2 with
      source := some "Synthetic Fallback" }

/-- Models `AQIService.fetch_current_aqi`: `upstream = some data` models a 2xx
response with body `data`; `none` models any failure (network error,
non-2xx, malformed body), which falls back. -/
def fetch_current_aqi (upstream : Option Envelope) (lat lon : ℚ)
    (file : Option (List Envelope)) (now off : ℤ) (d d2 : Draws) : Envelope :=
  match upstream with
  | some data => { data with source := some "OpenWeatherMap API" }
  | none => get_fallback_data lat lon file now off d d2

/-- Models `AQIService.fetch_historical_aqi`: on upstream success tag the body; on
any failure immediately synthesize the whole range in bulk. -/
def fetch_historical_aqi (upstream : Option Envelope) (lat lon : ℚ)
    (start_time end_time : ℤ) (off : ℤ) (ds : ℕ → Draws) : Envelope :=
  match upstream with
  | some data => { data with source := some "OpenWeatherMap API" }
  | none => generate_bulk_historical_data lat lon start_time end_time off ds

/-- The sample list built by `FakeDataGenerator.save_fake_data_to_file`
(before it is dumped to disk): for each of the five cities, one
`generate_fake_data` envelope per `hours_ago in range(0, 48, 3)`, with the
city name attached.  `ds j k` is the draw record of city `j`, offset
index `k`. -/
def save_fake_data_to_file_samples (now off : ℤ) (ds : ℕ → ℕ → Draws) :
    List Envelope :=
  (List.range knownLocations.length).flatMap fun j =>
    match knownLocations[j]? with
    | some (lat, lon, city) =>
      (List.range 16).map fun k =>
        { generate_fake_data lat lon (now - (3 * k : ℕ) * 3600) off (ds j k)
          with location_name := some city }
    | none => []

/-- One iteration of the `for lat, lon, name in locations` loop of
`populate_initial_historical_data`: check coverage of the trailing window,
and only when the count is below `24 * 30 * 0.8 = 576.0` fetch the window
(upstream, falling back to bulk synthesis) and persist it with the
location name. -/
def backfillStep (upstream : Option Envelope) (off : ℤ) (ds : ℕ → Draws)
    (start_time end_time : ℤ) (s : Store) (loc : ℚ × ℚ × String) : Store :=
  let (lat, lon, name) := loc
  let existing := get_historical_from_db s lat lon start_time end_time
  if existing.length < 576 then
    let historical_data := fetch_historical_aqi upstream lat lon
      start_time end_time off ds
    let historical_data := { historical_data with location_name := some name }
    save_to_database s historical_data (some name)
  else s

/-- Models `populate_initial_historical_data`: the startup backfill job, folding
`backfillStep` over the five fixed locations.  `upstream j` / `ds j` are
the upstream response and draw stream for location index `j`; the window is
`[end_time - 30*24*3600, end_time]` in the source, here kept general. -/
def populate_initial_historical_data (upstream : ℕ → Option Envelope)
    (off : ℤ) (ds : ℕ → ℕ → Draws) (start_time end_time : ℤ)
    (s : Store) : Store :=
  (List.range knownLocations.length).foldl
    (fun acc j =>
      match knownLocations[j]? with
      | some loc => backfillStep (upstream j) off (ds j) start_time end_time acc loc
      | none => acc) s

/-- Python truthiness of `request.args.get(name, type=float)`: `None`
(absent or unparsable) and `0.0` are falsy. -/
def pyTruthyFloat : Option ℚ → Bool
  | none => false
  | some v => decide (v ≠ 0)

/-- Python truthiness of a `request.args.get` string: `None` and `""` are
falsy. -/
def pyTruthyStr : Option String → Bool
  | none => false
  | some s => decide (s ≠ "")

/-- An HTTP response of the data endpoints: a JSON error body with a status
code, or a 200 with an envelope body. -/
inductive ApiResp where
  | err (code : ℕ) (msg : String)
  | ok (body : Envelope)
deriving Repr, DecidableEq

/-- The `/api/current` route handler after authentication: the
`if not (lat and lon)` presence check, then fetch (which never fails),
save, and return.  `upstream`, `file`, `now`, `off`, `d`, `d2` are the
ambient inputs of the fetch. -/
def get_current_aqi_route (lat lon : Option ℚ) (upstream : Option Envelope)
    (file : Option (List Envelope)) (now off : ℤ) (d d2 : Draws) : ApiResp :=
  if !(pyTruthyFloat lat && pyTruthyFloat lon) then
    .err 400 "Location required (lat/lon)"
  else
    .ok (fetch_current_aqi upstream (lat.getD 0) (lon.getD 0) file now off d d2)

/-- The `/api/forecast` route handler after authentication: the same
truthiness presence check; the rest of the handler is abstracted as
`rest`. -/
def get_forecast_aqi_route (lat lon : Option ℚ) (rest : ApiResp) : ApiResp :=
  if !(pyTruthyFloat lat && pyTruthyFloat lon) then
    .err 400 "Coordinates required"
  else rest

/-- The `/api/historical` route handler after authentication: the
`if not all([lat, lon, start_date, end_date])` presence check; the rest of
the handler (date parsing, DB/API lookup) is abstracted as `rest`. -/
def get_historical_aqi_route (lat lon : Option ℚ)
    (start_date end_date : Option String) (rest : ApiResp) : ApiResp :=
  if !(pyTruthyFloat lat && pyTruthyFloat lon &&
       pyTruthyStr start_date && pyTruthyStr end_date) then
    .err 400 "lat, lon, start, and end parameters required"
  else rest

/-- The source-tag set declared by the data model (spec §3): every
Observation's source tag is one of these three strings. -/
def declaredSourceTags : List String :=
  ["OpenWeatherMap API", "Synthetic Fallback", "Local Database"]

/-! ### Supporting lemmas -/

/-- The row written for one observation when both coordinates are present. -/
def rowOf (la lo : ℚ) (name : Option String) (src : String) (o : Obs) : Row :=
  { timestamp := o.dt, latitude := la, longitude := lo, aqi := o.aqi,
    pm2_5 := o.pm2_5, pm10 := o.pm10, co := o.co, no := o.no,
    no2 := o.no2, o3 := o.o3, so2 := o.so2, nh3 := o.nh3,
    location_name := name, source := src }

theorem mkRow_some (la lo : ℚ) (name : Option String) (src : String)
    (o : Obs) : mkRow (some la) (some lo) name src o = .ok (rowOf la lo name src o) :=
  rfl

theorem mapM_mkRow_ok (la lo : ℚ) (name : Option String) (src : String) :
    ∀ l : List Obs,
      l.mapM (mkRow (some la) (some lo) name src) =
        .ok (l.map (rowOf la lo name src))
  | [] => rfl
  | o :: rest => by
    rw [List.mapM_cons, mkRow_some, mapM_mkRow_ok la lo name src rest]
    rfl

/-- The effective location name used by `save_to_database`: the envelope
value overrides the parameter. -/
theorem saveRows_tup (s : Store) (data : Envelope) (p : Option String)
    (la lo : ℚ) (rest : List ℚ)
    (hc : data.coord = some (.tup (la :: lo :: rest))) :
    saveRows s data p =
      .ok (s ++ data.list.map (rowOf la lo
        (pickName data.location_name p)
        (data.source.getD "unknown"))) := by
  have h1 : saveRows s data p =
      Except.bind (data.list.mapM (mkRow (some la) (some lo)
        (pickName data.location_name p)
        (data.source.getD "unknown")))
        (fun rows => Except.ok (s ++ rows)) := by
    rw [saveRows]; simp only [hc, coordLatLon]; rfl
  rw [h1, mapM_mkRow_ok]
  rfl

theorem saveRows_obj (s : Store) (data : Envelope) (p : Option String)
    (la lo : ℚ) (hc : data.coord = some (.obj (some la) (some lo))) :
    saveRows s data p =
      .ok (s ++ data.list.map (rowOf la lo
        (pickName data.location_name p)
        (data.source.getD "unknown"))) := by
  have h1 : saveRows s data p =
      Except.bind (data.list.mapM (mkRow (some la) (some lo)
        (pickName data.location_name p)
        (data.source.getD "unknown")))
        (fun rows => Except.ok (s ++ rows)) := by
    rw [saveRows]; simp only [hc, coordLatLon]; rfl
  rw [h1, mapM_mkRow_ok]
  rfl

theorem timestamp_le_trans (a b c : Row) :
    (decide (a.timestamp ≤ b.timestamp)) → (decide (b.timestamp ≤ c.timestamp)) →
    (decide (a.timestamp ≤ c.timestamp)) := by
  simp only [decide_eq_true_eq]; omega

theorem timestamp_le_total (a b : Row) :
    (decide (a.timestamp ≤ b.timestamp)) || (decide (b.timestamp ≤ a.timestamp)) := by
  simp only [Bool.or_eq_true, decide_eq_true_eq]; omega

/-- C5.  For every lat, lon, start, end, the Store range query returns
exactly the stored rows with latitude in `[lat-0.1, lat+0.1]`, longitude in
`[lon-0.1, lon+0.1]` and timestamp in `[start, end]` — all three bounds
inclusive — ordered by timestamp ascending. -/
theorem query_range_exact (s : Store) (lat lon : ℚ) (start_time end_time : ℤ) :
    (get_historical_from_db s lat lon start_time end_time).Perm
      (s.filter (rowMatch lat lon start_time end_time)) ∧
    (∀ r : Row, r ∈ get_historical_from_db s lat lon start_time end_time ↔
      (r ∈ s ∧ lat - 0.1 ≤ r.latitude ∧ r.latitude ≤ lat + 0.1 ∧
       lon - 0.1 ≤ r.longitude ∧ r.longitude ≤ lon + 0.1 ∧
       start_time ≤ r.timestamp ∧ r.timestamp ≤ end_time)) ∧
    (get_historical_from_db s lat lon start_time end_time).Pairwise
      (fun a b => a.timestamp ≤ b.timestamp) := by
  refine ⟨List.mergeSort_perm _ _, ?_, ?_⟩
  · intro r
    simp [get_historical_from_db, List.mem_mergeSort, List.mem_filter,
      rowMatch, decide_eq_true_eq, and_assoc]
  · have h := @List.sorted_mergeSort Row
      (fun a b : Row => decide (a.timestamp ≤ b.timestamp))
      timestamp_le_trans timestamp_le_total
      (s.filter (rowMatch lat lon start_time end_time))
    exact h.imp (by simp only [decide_eq_true_eq]; exact fun hh => hh)

theorem exceptBind_ok {α β : Type} (x : α) (f : α → Except String β) :
    (Except.ok x >>= f) = f x := rfl

theorem exceptBind_error {α β : Type} (e : String) (f : α → Except String β) :
    ((Except.error e : Except String α) >>= f) = Except.error e := rfl

theorem saveRows_of_coord (s : Store) (data : Envelope) (p : Option String)
    (la lo : ℚ) (hc : coordLatLon data.coord = .ok (some la, some lo)) :
    saveRows s data p =
      .ok (s ++ data.list.map (rowOf la lo
        (pickName data.location_name p)
        (data.source.getD "unknown"))) := by
  match hco : data.coord with
  | none => rw [hco] at hc; simp [coordLatLon] at hc
  | some (.obj a b) =>
    rw [hco] at hc
    simp only [coordLatLon, Except.ok.injEq, Prod.mk.injEq] at hc
    exact saveRows_obj s data p la lo (by rw [hco, hc.1, hc.2])
  | some (.tup []) => rw [hco] at hc; simp [coordLatLon] at hc
  | some (.tup [a]) => rw [hco] at hc; simp [coordLatLon] at hc
  | some (.tup (a :: b :: rest)) =>
    rw [hco] at hc
    simp only [coordLatLon, Except.ok.injEq, Prod.mk.injEq,
      Option.some.injEq] at hc
    exact saveRows_tup s data p la lo rest (by rw [hco, hc.1, hc.2])

theorem mkRow_ok_fields (a b : Option ℚ) (name : Option String) (src : String)
    (o : Obs) (r : Row) (h : mkRow a b name src o = .ok r) :
    r.source = src ∧ r.location_name = name := by
  match a, b with
  | some la, some lo =>
    rw [mkRow_some] at h
    cases h
    exact ⟨rfl, rfl⟩
  | none, _ => simp [mkRow] at h
  | some _, none => simp [mkRow] at h

theorem mapM_mkRow_fields (a b : Option ℚ) (name : Option String)
    (src : String) :
    ∀ (l : List Obs) (rows : List Row),
      l.mapM (mkRow a b name src) = .ok rows →
      ∀ r ∈ rows, r.source = src ∧ r.location_name = name
  | [], rows, h => by
    rw [List.mapM_nil] at h
    cases h
    intro r hr
    cases hr
  | o :: rest, rows, h => by
    rw [List.mapM_cons] at h
    cases hm : mkRow a b name src o with
    | error e => rw [hm, exceptBind_error] at h; cases h
    | ok r0 =>
      rw [hm, exceptBind_ok] at h
      cases hrest : rest.mapM (mkRow a b name src) with
      | error e => rw [hrest, exceptBind_error] at h; cases h
      | ok rs =>
        rw [hrest, exceptBind_ok] at h
        cases h
        intro r hr
        rcases List.mem_cons.mp hr with h0 | hmem
        · subst h0; exact mkRow_ok_fields a b name src o r hm
        · exact mapM_mkRow_fields a b name src rest rs hrest r hmem

/-- The fields of a stored row that come from the observation itself. -/
def rowData (r : Row) :
    ℤ × Option ℚ × Option ℚ × Option ℚ × Option ℚ × Option ℚ × Option ℚ ×
      Option ℚ × Option ℚ :=
  (r.timestamp, r.pm2_5, r.pm10, r.co, r.no, r.no2, r.o3, r.so2, r.nh3)

/-- The same fields read off an observation, in the same order. -/
def obsData (o : Obs) :
    ℤ × Option ℚ × Option ℚ × Option ℚ × Option ℚ × Option ℚ × Option ℚ ×
      Option ℚ × Option ℚ :=
  (o.dt, o.pm2_5, o.pm10, o.co, o.no, o.no2, o.o3, o.so2, o.nh3)

/-- C6.  Round-trip: inserting an envelope with N Observations into an
empty Store and querying the envelope's own coordinates over a time range
containing every timestamp returns N rows whose timestamp and pollutant
values (including absent-as-null optional fields) match the inserted
Observations. -/
theorem store_round_trip (env : Envelope) (p : Option String) (la lo : ℚ)
    (start_time end_time : ℤ)
    (hc : coordLatLon env.coord = .ok (some la, some lo))
    (hts : ∀ o ∈ env.list, start_time ≤ o.dt ∧ o.dt ≤ end_time) :
    (get_historical_from_db (save_to_database [] env p) la lo
        start_time end_time).length = env.list.length ∧
    ((get_historical_from_db (save_to_database [] env p) la lo
        start_time end_time).map rowData).Perm (env.list.map obsData) := by
  have hsave := saveRows_of_coord [] env p la lo hc
  have hstore : save_to_database [] env p =
      env.list.map (rowOf la lo
        (pickName env.location_name p)
        (env.source.getD "unknown")) := by
    rw [save_to_database, hsave]
    simp
  have hfilter : (env.list.map (rowOf la lo
      (pickName env.location_name p)
      (env.source.getD "unknown"))).filter
        (rowMatch la lo start_time end_time) =
      env.list.map (rowOf la lo
        (pickName env.location_name p)
        (env.source.getD "unknown")) := by
    apply List.filter_eq_self.mpr
    intro r hr
    rcases List.mem_map.mp hr with ⟨o, ho, rfl⟩
    have := hts o ho
    simp only [rowMatch, rowOf, decide_eq_true_eq]
    refine ⟨by linarith, by linarith, by linarith, by linarith, this.1, this.2⟩
  have hperm : (get_historical_from_db (save_to_database [] env p) la lo
      start_time end_time).Perm
      (env.list.map (rowOf la lo
        (pickName env.location_name p)
        (env.source.getD "unknown"))) := by
    rw [get_historical_from_db, hstore, hfilter]
    exact List.mergeSort_perm _ _
  constructor
  · rw [hperm.length_eq, List.length_map]
  · have h2 := hperm.map rowData
    rwa [List.map_map, show rowData ∘ (rowOf la lo
      (pickName env.location_name p)
      (env.source.getD "unknown")) = obsData from funext (fun o => rfl)] at h2

/-- Witness for `store_round_trip` at a concrete envelope. -/
theorem store_round_trip_witness :
    (coordLatLon (Envelope.mk (some (.tup [1, 2]))
        [⟨5, 3, none, some 4, none, none, none, some 7, none, none⟩]
        none (some "Synthetic Fallback")).coord = .ok (some 1, some 2)) ∧
    (∀ o ∈ (Envelope.mk (some (.tup [1, 2]))
        [⟨5, 3, none, some 4, none, none, none, some 7, none, none⟩]
        none (some "Synthetic Fallback")).list, (0:ℤ) ≤ o.dt ∧ o.dt ≤ 10) ∧
    ((get_historical_from_db (save_to_database []
        (Envelope.mk (some (.tup [1, 2]))
          [⟨5, 3, none, some 4, none, none, none, some 7, none, none⟩]
          none (some "Synthetic Fallback")) none) 1 2 0 10).length =
      (Envelope.mk (some (.tup [1, 2]))
        [⟨5, 3, none, some 4, none, none, none, some 7, none, none⟩]
        none (some "Synthetic Fallback")).list.length ∧
     ((get_historical_from_db (save_to_database []
        (Envelope.mk (some (.tup [1, 2]))
          [⟨5, 3, none, some 4, none, none, none, some 7, none, none⟩]
          none (some "Synthetic Fallback")) none) 1 2 0 10).map rowData).Perm
      ((Envelope.mk (some (.tup [1, 2]))
        [⟨5, 3, none, some 4, none, none, none, some 7, none, none⟩]
        none (some "Synthetic Fallback")).list.map obsData)) :=
  ⟨rfl, by decide, store_round_trip _ none 1 2 0 10 rfl (by decide)⟩

/-- C7.  Store insert accepts the envelope's coordinates both as a
{lat,lon} object and as a two-element tuple (and writes the same rows for
both); a location name embedded in the envelope overrides the
`location_name` parameter for every written row; and an envelope with an
empty list writes zero rows without failing. -/
theorem insert_coord_forms_and_name (s : Store) (l : List Obs)
    (ename src : Option String) (p : Option String) (la lo : ℚ) :
    (save_to_database s (Envelope.mk (some (.obj (some la) (some lo))) l ename src) p =
       save_to_database s (Envelope.mk (some (.tup [la, lo])) l ename src) p) ∧
    (save_to_database s (Envelope.mk (some (.tup [la, lo])) l ename src) p =
       s ++ l.map (rowOf la lo
         (pickName ename p)
         (src.getD "unknown"))) ∧
    (∀ n, ename = some n →
       ∀ r ∈ save_to_database s (Envelope.mk (some (.tup [la, lo])) l ename src) p,
         r ∈ s ∨ r.location_name = some n) ∧
    (∀ (env : Envelope) (q : Option String), env.list = [] →
       save_to_database s env q = s) := by
  have hobj := saveRows_obj s (Envelope.mk (some (.obj (some la) (some lo))) l ename src) p la lo rfl
  have htup := saveRows_tup s (Envelope.mk (some (.tup [la, lo])) l ename src) p la lo [] rfl
  have hsave : save_to_database s (Envelope.mk (some (.tup [la, lo])) l ename src) p =
      s ++ l.map (rowOf la lo
        (pickName ename p)
        (src.getD "unknown")) := by
    simp only [save_to_database, htup]
  refine ⟨?_, hsave, ?_, ?_⟩
  · simp only [save_to_database, hobj, htup]
  · intro n hn r hr
    rw [hsave] at hr
    rcases List.mem_append.mp hr with h1 | h2
    · exact Or.inl h1
    · rcases List.mem_map.mp h2 with ⟨o, _, rfl⟩
      subst hn
      exact Or.inr rfl
  · intro env q hl
    rw [save_to_database]
    cases hres : saveRows s env q with
    | error e => rfl
    | ok s2 =>
      rw [saveRows] at hres
      cases hco : coordLatLon env.coord with
      | error e => rw [hco, exceptBind_error] at hres; cases hres
      | ok pair =>
        obtain ⟨a, b⟩ := pair
        rw [hco, exceptBind_ok, hl] at hres
        simp only [List.mapM_nil] at hres
        have hres2 : Except.ok (s ++ ([] : List Row)) = Except.ok s2 := hres
        cases hres2
        simp

/-- Witness for `insert_coord_forms_and_name` at a concrete input. -/
theorem insert_coord_forms_and_name_witness :
    ((some "Beijing" : Option String) = some "Beijing") ∧
    ((Envelope.mk none [] none none).list = []) ∧
    (save_to_database []
        (Envelope.mk (some (.obj (some 3) (some 4)))
          [⟨7, 2, none, none, none, none, none, none, none, none⟩]
          (some "Beijing") none) (some "ignored") =
      save_to_database []
        (Envelope.mk (some (.tup [3, 4]))
          [⟨7, 2, none, none, none, none, none, none, none, none⟩]
          (some "Beijing") none) (some "ignored")) ∧
    (∀ r ∈ save_to_database []
        (Envelope.mk (some (.tup [3, 4]))
          [⟨7, 2, none, none, none, none, none, none, none, none⟩]
          (some "Beijing") none) (some "ignored"),
      r ∈ ([] : Store) ∨ r.location_name = some "Beijing") ∧
    (save_to_database [] (Envelope.mk none [] none none) none = []) := by
  have h := insert_coord_forms_and_name []
    [⟨7, 2, none, none, none, none, none, none, none, none⟩]
    (some "Beijing") none (some "ignored") 3 4
  exact ⟨rfl, rfl, h.1, h.2.2.1 "Beijing" rfl,
    h.2.2.2 (Envelope.mk none [] none none) none rfl⟩

/-- C8.  The Store operations never raise past the Store boundary: for
every input (connection failure, malformed envelope, constraint
violation), insert degrades to a no-op — the result is either the original
store or the committed batch — and the range query returns `[]` on a
connection failure. -/
theorem store_error_boundary (conn : Except String Unit) (s : Store)
    (env : Envelope) (p : Option String) (lat lon : ℚ)
    (start_time end_time : ℤ) :
    (save_to_database_conn conn s env p = s ∨
       saveRows s env p = .ok (save_to_database_conn conn s env p)) ∧
    (∀ msg, conn = .error msg →
       save_to_database_conn conn s env p = s ∧
       get_historical_from_db_conn conn s lat lon start_time end_time = []) ∧
    (∀ msg, saveRows s env p = .error msg →
       save_to_database_conn conn s env p = s) := by
  refine ⟨?_, ?_, ?_⟩
  · cases conn with
    | error e => exact Or.inl rfl
    | ok u =>
      cases hres : saveRows s env p with
      | error e =>
        left
        simp [save_to_database_conn, save_to_database, hres]
      | ok s2 =>
        right
        simp [save_to_database_conn, save_to_database, hres]
  · intro msg hmsg
    subst hmsg
    exact ⟨rfl, rfl⟩
  · intro msg hmsg
    cases conn with
    | error e => rfl
    | ok u => simp [save_to_database_conn, save_to_database, hmsg]

/-- Witness for `store_error_boundary`: a failed connection and a
malformed (too-short tuple) envelope. -/
theorem store_error_boundary_witness :
    ((Except.error "connection refused" : Except String Unit) =
       .error "connection refused") ∧
    (saveRows [] (Envelope.mk (some (.tup []))
        [⟨1, 1, none, none, none, none, none, none, none, none⟩] none none)
        none = .error "IndexError") ∧
    (save_to_database_conn (.error "connection refused") []
        (Envelope.mk (some (.tup []))
          [⟨1, 1, none, none, none, none, none, none, none, none⟩] none none)
        none = [] ∧
     get_historical_from_db_conn (.error "connection refused") [] 0 0 0 0 = []) ∧
    (save_to_database_conn (.ok ()) []
        (Envelope.mk (some (.tup []))
          [⟨1, 1, none, none, none, none, none, none, none, none⟩] none none)
        none = []) := by
  have h1 := store_error_boundary (.error "connection refused") []
    (Envelope.mk (some (.tup []))
      [⟨1, 1, none, none, none, none, none, none, none, none⟩] none none)
    none 0 0 0 0
  have h2 := store_error_boundary (.ok ()) []
    (Envelope.mk (some (.tup []))
      [⟨1, 1, none, none, none, none, none, none, none, none⟩] none none)
    none 0 0 0 0
  exact ⟨rfl, rfl, h1.2.1 "connection refused" rfl,
    h2.2.2 "IndexError" rfl⟩

/-- C10.  Every row written by Store insert carries the envelope's
top-level `"source"` value when present and the literal `"unknown"`
otherwise — and `"unknown"` is outside the data model's declared source-tag
set. -/
theorem insert_source_unknown (s : Store) (env : Envelope)
    (p : Option String) (s2 : Store) (h : saveRows s env p = .ok s2) :
    (∀ r ∈ s2, r ∈ s ∨ r.source = env.source.getD "unknown") ∧
    "unknown" ∉ declaredSourceTags := by
  refine ⟨?_, by decide⟩
  rw [saveRows] at h
  cases hco : coordLatLon env.coord with
  | error e => rw [hco, exceptBind_error] at h; cases h
  | ok pair =>
    obtain ⟨a, b⟩ := pair
    rw [hco, exceptBind_ok] at h
    have h1 : (env.list.mapM (mkRow a b
        (pickName env.location_name p) (env.source.getD "unknown")) >>=
          fun rows => pure (s ++ rows)) = Except.ok s2 := h
    cases hm : env.list.mapM (mkRow a b
        (pickName env.location_name p) (env.source.getD "unknown")) with
    | error e => rw [hm, exceptBind_error] at h1; cases h1
    | ok rows =>
      rw [hm, exceptBind_ok] at h1
      have h2 : Except.ok (s ++ rows) = Except.ok s2 := h1
      cases h2
      intro r hr
      rcases List.mem_append.mp hr with h1 | h1
      · exact Or.inl h1
      · exact Or.inr (mapM_mkRow_fields a b
          (pickName env.location_name p) (env.source.getD "unknown")
          env.list rows hm r h1).1

/-- Witness for `insert_source_unknown`: an envelope with no source field
writes a row tagged `"unknown"`. -/
theorem insert_source_unknown_witness :
    (saveRows [] (Envelope.mk (some (.tup [1, 2]))
        [⟨3, 2, none, none, none, none, none, none, none, none⟩] none none)
        none =
      .ok [⟨3, 1, 2, 2, none, none, none, none, none, none, none, none,
            none, "unknown"⟩]) ∧
    ((∀ r ∈ [(⟨3, 1, 2, 2, none, none, none, none, none, none, none, none,
            none, "unknown"⟩ : Row)], r ∈ ([] : Store) ∨
        r.source = (Envelope.mk (some (.tup [1, 2]))
          [⟨3, 2, none, none, none, none, none, none, none, none⟩]
          none none).source.getD "unknown") ∧
      "unknown" ∉ declaredSourceTags) :=
  ⟨rfl, insert_source_unknown [] _ none _ rfl⟩

/-- C9.  A request to `/api/current`, `/api/forecast` or `/api/historical`
whose `lat` or `lon` parses to exactly `0.0` gets the same 400
"required"-parameters error as if the parameter were absent, because the
presence check tests Python truthiness of the parsed floats. -/
theorem zero_coordinate_unreachable (lat lon : Option ℚ)
    (upstream : Option Envelope) (file : Option (List Envelope))
    (now off : ℤ) (d d2 : Draws) (start_date end_date : Option String)
    (rest1 rest2 : ApiResp) (h : lat = some 0 ∨ lon = some 0) :
    get_current_aqi_route lat lon upstream file now off d d2 =
      .err 400 "Location required (lat/lon)" ∧
    get_current_aqi_route lat lon upstream file now off d d2 =
      get_current_aqi_route none none upstream file now off d d2 ∧
    get_forecast_aqi_route lat lon rest1 = .err 400 "Coordinates required" ∧
    get_forecast_aqi_route lat lon rest1 =
      get_forecast_aqi_route none none rest1 ∧
    get_historical_aqi_route lat lon start_date end_date rest2 =
      .err 400 "lat, lon, start, and end parameters required" ∧
    get_historical_aqi_route lat lon start_date end_date rest2 =
      get_historical_aqi_route none none start_date end_date rest2 := by
  have hfalse : (pyTruthyFloat lat && pyTruthyFloat lon) = false := by
    rcases h with h0 | h0 <;> subst h0 <;>
      simp [pyTruthyFloat, Bool.and_eq_false_iff]
  refine ⟨?_, ?_, ?_, ?_, ?_, ?_⟩
  · rw [get_current_aqi_route, hfalse]; rfl
  · rw [get_current_aqi_route, hfalse]; rfl
  · rw [get_forecast_aqi_route, hfalse]; rfl
  · rw [get_forecast_aqi_route, hfalse]; rfl
  · rw [get_historical_aqi_route]
    rw [show (pyTruthyFloat lat && pyTruthyFloat lon &&
      pyTruthyStr start_date && pyTruthyStr end_date) = false by
        rw [hfalse]; simp]
    rfl
  · rw [get_historical_aqi_route]
    rw [show (pyTruthyFloat lat && pyTruthyFloat lon &&
      pyTruthyStr start_date && pyTruthyStr end_date) = false by
        rw [hfalse]; simp]
    rfl

/-- Witness for `zero_coordinate_unreachable` at `lat = 0.0` (the equator)
with `lon = 5.0` present and valid. -/
theorem zero_coordinate_unreachable_witness :
    ((some (0:ℚ)) = some 0 ∨ (some (5:ℚ)) = some 0) ∧
    (get_current_aqi_route (some 0) (some 5) none none 0 0
        ⟨0,0,0,0,0,0,0,0,0⟩ ⟨0,0,0,0,0,0,0,0,0⟩ =
      .err 400 "Location required (lat/lon)" ∧
     get_current_aqi_route (some 0) (some 5) none none 0 0
        ⟨0,0,0,0,0,0,0,0,0⟩ ⟨0,0,0,0,0,0,0,0,0⟩ =
      get_current_aqi_route none none none none 0 0
        ⟨0,0,0,0,0,0,0,0,0⟩ ⟨0,0,0,0,0,0,0,0,0⟩ ∧
     get_forecast_aqi_route (some 0) (some 5) (.err 500 "x") =
      .err 400 "Coordinates required" ∧
     get_forecast_aqi_route (some 0) (some 5) (.err 500 "x") =
      get_forecast_aqi_route none none (.err 500 "x") ∧
     get_historical_aqi_route (some 0) (some 5) (some "2024-01-01")
        (some "2024-01-02") (.err 500 "y") =
      .err 400 "lat, lon, start, and end parameters required" ∧
     get_historical_aqi_route (some 0) (some 5) (some "2024-01-01")
        (some "2024-01-02") (.err 500 "y") =
      get_historical_aqi_route none none (some "2024-01-01")
        (some "2024-01-02") (.err 500 "y")) :=
  ⟨Or.inl rfl,
   zero_coordinate_unreachable (some 0) (some 5) none none 0 0
     ⟨0,0,0,0,0,0,0,0,0⟩ ⟨0,0,0,0,0,0,0,0,0⟩ (some "2024-01-01")
     (some "2024-01-02") (.err 500 "x") (.err 500 "y") (Or.inl rfl)⟩

theorem hourOf_bounds (t off : ℤ) : 0 ≤ hourOf t off ∧ hourOf t off < 24 :=
  ⟨Int.emod_nonneg _ (by norm_num), Int.emod_lt_of_pos _ (by norm_num)⟩

theorem baseAfterLocation_bounds (lat lon b : ℚ) (hb : 0 ≤ b) :
    0 ≤ baseAfterLocation lat lon b ∧ baseAfterLocation lat lon b ≤ b * 1.5 := by
  unfold baseAfterLocation
  split_ifs <;> constructor <;> nlinarith

theorem basePollution_bounds (lat lon : ℚ) (t off : ℤ) (d : Draws)
    (h1 : 0 ≤ d.base) (h2 : d.base ≤ 0.8) :
    0 ≤ basePollution lat lon t off d ∧ basePollution lat lon t off d ≤ 1.56 := by
  obtain ⟨hb0, hb1⟩ := baseAfterLocation_bounds lat lon d.base h1
  obtain ⟨hh0, hh24⟩ := hourOf_bounds t off
  have h0q : (0:ℚ) ≤ (hourOf t off : ℚ) := by exact_mod_cast hh0
  have h23q : (hourOf t off : ℚ) ≤ 23 := by
    exact_mod_cast (by omega : hourOf t off ≤ 23)
  have habs : |(hourOf t off : ℚ) - 12| ≤ 12 :=
    abs_le.mpr ⟨by linarith, by linarith⟩
  have habs0 : 0 ≤ |(hourOf t off : ℚ) - 12| := abs_nonneg _
  unfold basePollution
  constructor
  · apply mul_nonneg hb0
    nlinarith
  · nlinarith

/-- The AQI derivation as claimed by the specification:
`clamp(round(1 + intensity*4), 1, 5)`, with true rounding.  (The source
uses Python `int`, i.e. truncation.)  Kept separate so the claim can be
compared with the source's behaviour. -/
def specClaimedAqi (intensity : ℚ) : ℤ := min 5 (max 1 (round (1 + intensity * 4)))

/-- Concrete in-range draws exhibiting the difference between rounding and
truncation: `base = 0.4` gives `1 + intensity*4 = 2.6`. -/
def cexDraws : Draws := ⟨2/5, 0, 0, 0, 0, 0, 0, 0, 0⟩

/-- C2, counterexample.  At `lat = lon = 0`, noon (`t = 43200`, UTC host),
`base = 0.4`: the generated AQI category is `int(2.6) = 2`, while the
claimed formula `clamp(round(1 + intensity*4), 1, 5)` gives `3`. -/
theorem generate_aqi_truncates_not_rounds :
    cexDraws.InRange ∧
    (generate_fake_data 0 0 43200 0 cexDraws).list.map Obs.aqi = [2] ∧
    [specClaimedAqi (basePollution 0 0 43200 0 cexDraws)] = [3] ∧
    (generate_fake_data 0 0 43200 0 cexDraws).list.map Obs.aqi ≠
      [specClaimedAqi (basePollution 0 0 43200 0 cexDraws)] := by
  have hbp : basePollution 0 0 43200 0 cexDraws = 2/5 := by
    have hh : hourOf 43200 0 = 12 := by norm_num [hourOf, Int.fdiv]
    unfold basePollution
    rw [hh]
    norm_num [baseAfterLocation, abs, cexDraws]
  have h2 : (generate_fake_data 0 0 43200 0 cexDraws).list.map Obs.aqi = [2] := by
    simp only [generate_fake_data, List.map_cons, List.map_nil, hbp]
    norm_num [pyInt]
  have h3 : [specClaimedAqi (basePollution 0 0 43200 0 cexDraws)] = [3] := by
    rw [hbp]
    simp only [specClaimedAqi]
    norm_num [round_eq]
  exact ⟨by norm_num [Draws.InRange, cexDraws], h2, h3,
    by rw [h2, h3]; decide⟩

/-- C2, amended.  For all valid lat, lon, timestamp and in-range draws, the
single-point generator returns exactly one Observation whose AQI category
equals `clamp(trunc(1 + intensity*4), 1, 5)` (truncation, not rounding) and
hence lies in `[1, 5]`, and whose pollutant values are non-negative except
possibly CO. -/
theorem generate_single_point_amended (lat lon : ℚ) (t off : ℤ) (d : Draws)
    (h : d.InRange) :
    (generate_fake_data lat lon t off d).list.length = 1 ∧
    ∀ o ∈ (generate_fake_data lat lon t off d).list,
      (o.aqi = min 5 (max 1 (pyInt (1 + basePollution lat lon t off d * 4))) ∧
       1 ≤ o.aqi ∧ o.aqi ≤ 5) ∧
      (∀ v, o.no = some v → 0 ≤ v) ∧
      (∀ v, o.no2 = some v → 0 ≤ v) ∧
      (∀ v, o.o3 = some v → 0 ≤ v) ∧
      (∀ v, o.so2 = some v → 0 ≤ v) ∧
      (∀ v, o.pm2_5 = some v → 0 ≤ v) ∧
      (∀ v, o.pm10 = some v → 0 ≤ v) ∧
      (∀ v, o.nh3 = some v → 0 ≤ v) := by
  obtain ⟨hb1, hb2, hco1, hco2, hno1, hno2, hn21, hn22, ho31, ho32,
    hso1, hso2, hpm1, hpm2, hp101, hp102, hnh1, hnh2⟩ := h
  obtain ⟨hbp0, hbp1⟩ := basePollution_bounds lat lon t off d
    (by linarith) hb2
  refine ⟨rfl, ?_⟩
  intro o ho
  have ho2 : o = Obs.mk t
      (min 5 (max 1 (pyInt (1 + basePollution lat lon t off d * 4))))
      (some (200 + d.dCO * basePollution lat lon t off d))
      (some (d.dNO * basePollution lat lon t off d))
      (some (d.dNO2 * basePollution lat lon t off d))
      (some (60 + d.dO3 * basePollution lat lon t off d))
      (some (d.dSO2 * basePollution lat lon t off d))
      (some (d.dPM25 * basePollution lat lon t off d))
      (some (d.dPM10 * basePollution lat lon t off d))
      (some (d.dNH3 * basePollution lat lon t off d)) := by
    simpa [generate_fake_data] using ho
  subst ho2
  refine ⟨⟨rfl, le_min (by norm_num) (le_max_left 1 _), min_le_left 5 _⟩,
    ?_, ?_, ?_, ?_, ?_, ?_, ?_⟩ <;> intro v hv <;> cases hv
  · exact mul_nonneg hno1 hbp0
  · exact mul_nonneg hn21 hbp0
  · nlinarith
  · exact mul_nonneg hso1 hbp0
  · exact mul_nonneg hpm1 hbp0
  · exact mul_nonneg hp101 hbp0
  · exact mul_nonneg hnh1 hbp0

/-- Witness for `generate_single_point_amended` at a concrete input. -/
theorem generate_single_point_amended_witness :
    (⟨1/2, 1, 2, 3, 4, 5, 6, 7, 8⟩ : Draws).InRange ∧
    (generate_fake_data 10 20 0 0 ⟨1/2, 1, 2, 3, 4, 5, 6, 7, 8⟩).list.length = 1 :=
  ⟨by norm_num [Draws.InRange],
   (generate_single_point_amended 10 20 0 0 ⟨1/2, 1, 2, 3, 4, 5, 6, 7, 8⟩
     (by norm_num [Draws.InRange])).1⟩

theorem bulkLoop_map_dt (lat lon : ℚ) (off : ℤ) (ds : ℕ → Draws)
    (end_time : ℤ) :
    ∀ (n : ℕ) (current : ℤ) (i : ℕ), (end_time + 1 - current).toNat = n →
      current ≤ end_time →
      (bulkLoop lat lon off ds end_time current i).map Obs.dt =
        (List.range (((end_time - current) / 3600).toNat + 1)).map
          (fun k : ℕ => current + 3600 * (k : ℤ)) := by
  intro n
  induction n using Nat.strong_induction_on with
  | _ n ih =>
    intro current i hn hle
    rw [bulkLoop, if_pos hle, List.map_append]
    have hgen : ((generate_fake_data lat lon current off (ds i)).list).map
        Obs.dt = [current] := rfl
    rw [hgen]
    by_cases h2 : current + 3600 ≤ end_time
    · have hrec := ih (end_time + 1 - (current + 3600)).toNat (by omega)
        (current + 3600) (i + 1) rfl h2
      rw [hrec]
      have hm : ((end_time - current) / 3600).toNat =
          ((end_time - (current + 3600)) / 3600).toNat + 1 := by omega
      rw [hm]
      conv_rhs => rw [List.range_succ_eq_map, List.map_cons, List.map_map]
      rw [List.singleton_append]
      congr 1
      · norm_num
      · apply List.map_congr_left
        intro a _
        simp only [Function.comp]
        push_cast
        ring
    · have hstop : bulkLoop lat lon off ds end_time (current + 3600) (i + 1) = [] := by
        rw [bulkLoop, if_neg h2]
      rw [hstop]
      have hone : ((end_time - current) / 3600).toNat = 0 := by omega
      rw [hone]
      simp [List.range_succ]

/-- C3.  For every lat, lon and range with `start ≤ end`, the Historical
acquisition fallback is exactly the bulk generator, whose envelope is
tagged `"Synthetic Fallback"` and contains `floor((end-start)/3600) + 1`
Observations with timestamps `start, start+3600, start+2·3600, ...`. -/
theorem historical_fallback_bulk (lat lon : ℚ) (start_time end_time off : ℤ)
    (ds : ℕ → Draws) (h : start_time ≤ end_time) :
    fetch_historical_aqi none lat lon start_time end_time off ds =
      generate_bulk_historical_data lat lon start_time end_time off ds ∧
    (fetch_historical_aqi none lat lon start_time end_time off ds).source =
      some "Synthetic Fallback" ∧
    (fetch_historical_aqi none lat lon start_time end_time off ds).list.map
        Obs.dt =
      (List.range (((end_time - start_time) / 3600).toNat + 1)).map
        (fun k : ℕ => start_time + 3600 * (k : ℤ)) ∧
    (fetch_historical_aqi none lat lon start_time end_time off ds).list.length =
      ((end_time - start_time) / 3600).toNat + 1 := by
  have hmap :
      (fetch_historical_aqi none lat lon start_time end_time off ds).list.map
          Obs.dt =
        (List.range (((end_time - start_time) / 3600).toNat + 1)).map
          (fun k : ℕ => start_time + 3600 * (k : ℤ)) :=
    bulkLoop_map_dt lat lon off ds end_time
      (end_time + 1 - start_time).toNat start_time 0 rfl h
  refine ⟨rfl, rfl, hmap, ?_⟩
  have hlen := congrArg List.length hmap
  rwa [List.length_map, List.length_map, List.length_range] at hlen

/-- Witness for `historical_fallback_bulk`: a three-hour range yields three
hourly observations. -/
theorem historical_fallback_bulk_witness :
    ((0:ℤ) ≤ 7200) ∧
    (fetch_historical_aqi none 0 0 0 7200 0
        (fun _ => ⟨1/2, 0, 0, 0, 0, 0, 0, 0, 0⟩)).list.map Obs.dt =
      (List.range ((((7200:ℤ) - 0) / 3600).toNat + 1)).map
        (fun k : ℕ => 0 + 3600 * (k : ℤ)) :=
  ⟨by norm_num,
   (historical_fallback_bulk 0 0 0 7200 0
     (fun _ => ⟨1/2, 0, 0, 0, 0, 0, 0, 0, 0⟩) (by norm_num)).2.2.1⟩

theorem tagWithName_list (name : Option String) (e : Envelope) :
    (tagWithName name e).list = e.list := by
  unfold tagWithName
  cases name <;> rfl

theorem tagWithName_some (n : String) (e : Envelope) :
    (tagWithName (some n) e).location_name = some n := rfl

theorem getFallbackCore_none (lat lon : ℚ) (now off : ℤ) (d : Draws) :
    getFallbackCore lat lon none now off d =
      .ok { tagWithName (get_location_name lat lon)
              (generate_fake_data lat lon now off d) with
            source := some "Synthetic Fallback" } := rfl

theorem getFallbackCore_some (lat lon : ℚ) (items : List Envelope)
    (now off : ℤ) (d : Draws) :
    getFallbackCore lat lon (some items) now off d =
      findSample lat lon items >>= fun fromFile =>
        match fromFile with
        | some item =>
          pure { tagWithName (get_location_name lat lon) item with
                 source := some "Synthetic Fallback" }
        | none =>
          pure { tagWithName (get_location_name lat lon)
                   (generate_fake_data lat lon now off d) with
                 source := some "Synthetic Fallback" } := rfl

theorem get_fallback_data_of_ok (lat lon : ℚ) (file : Option (List Envelope))
    (now off : ℤ) (d d2 : Draws) (r : Envelope)
    (h : getFallbackCore lat lon file now off d = .ok r) :
    get_fallback_data lat lon file now off d d2 = r := by
  unfold get_fallback_data
  rw [h]

theorem findSample_ok (lat lon : ℚ) :
    ∀ items : List Envelope,
      (∀ it ∈ items, ∃ a b rest, it.coord = some (.tup (a :: b :: rest))) →
      ∃ o, findSample lat lon items = .ok o ∧
        ∀ it, o = some it → it ∈ items
  | [], _ => ⟨none, rfl, by intro it h2; cases h2⟩
  | it :: rest, h => by
    obtain ⟨a, b, r2, hc⟩ := h it (List.mem_cons_self it rest)
    have hca : coordAt it.coord 0 = .ok a := by rw [hc]; simp [coordAt]
    have hcb : coordAt it.coord 1 = .ok b := by rw [hc]; simp [coordAt]
    have heq : findSample lat lon (it :: rest) =
        if |a - lat| < 1 ∧ |b - lon| < 1 then pure (some it)
        else findSample lat lon rest := by
      rw [findSample, hca, exceptBind_ok, hcb, exceptBind_ok]
    by_cases hcond : |a - lat| < 1 ∧ |b - lon| < 1
    · refine ⟨some it, ?_, ?_⟩
      · rw [heq, if_pos hcond]; rfl
      · intro it2 h2
        cases h2
        exact List.mem_cons_self it rest
    · obtain ⟨o, ho, hmem⟩ := findSample_ok lat lon rest
        (fun x hx => h x (List.mem_cons_of_mem _ hx))
      refine ⟨o, ?_, fun it2 h2 => List.mem_cons_of_mem _ (hmem it2 h2)⟩
      rw [heq, if_neg hcond]
      exact ho

/-- C1.  When the upstream current fetch fails, `fetch_current_aqi` falls
back to an envelope tagged `"Synthetic Fallback"` with exactly one
Observation; the resolved location name is attached whenever the
coordinates are within 0.1° of a known location (and resolution succeeds
exactly on such coordinates); and the first pre-generated file sample
within 1° is preferred over fresh generation.  The hypothesis states that
the sample file is well-formed (each sample has a two-or-more element
coordinate array and a single observation), which holds for the file the
program itself writes. -/
theorem current_fetch_fallback (lat lon : ℚ) (file : Option (List Envelope))
    (now off : ℤ) (d d2 : Draws)
    (hwf : ∀ items, file = some items → ∀ it ∈ items,
      (∃ a b rest, it.coord = some (.tup (a :: b :: rest))) ∧
      it.list.length = 1) :
    (fetch_current_aqi none lat lon file now off d d2).source =
      some "Synthetic Fallback" ∧
    (fetch_current_aqi none lat lon file now off d d2).list.length = 1 ∧
    (∀ n, get_location_name lat lon = some n →
      (fetch_current_aqi none lat lon file now off d d2).location_name =
        some n) ∧
    ((get_location_name lat lon).isSome ↔
      ∃ loc ∈ knownLocations, |lat - loc.1| < 0.1 ∧ |lon - loc.2.1| < 0.1) ∧
    (∀ items it, file = some items →
      findSample lat lon items = .ok (some it) →
      (fetch_current_aqi none lat lon file now off d d2).list = it.list) := by
  have hmain : ∃ base : Envelope,
      get_fallback_data lat lon file now off d d2 =
        { tagWithName (get_location_name lat lon) base with
          source := some "Synthetic Fallback" } ∧
      base.list.length = 1 ∧
      (∀ items it, file = some items →
        findSample lat lon items = .ok (some it) → base = it) := by
    cases hf : file with
    | none =>
      refine ⟨generate_fake_data lat lon now off d,
        get_fallback_data_of_ok lat lon none now off d d2 _
          (getFallbackCore_none lat lon now off d), rfl, ?_⟩
      intro items it h2
      cases h2
    | some items =>
      have hwf2 : ∀ it ∈ items, ∃ a b rest,
          it.coord = some (.tup (a :: b :: rest)) :=
        fun it hit => (hwf items hf it hit).1
      obtain ⟨o, ho, hmem⟩ := findSample_ok lat lon items hwf2
      cases o with
      | none =>
        have hcore : getFallbackCore lat lon (some items) now off d =
            .ok { tagWithName (get_location_name lat lon)
                    (generate_fake_data lat lon now off d) with
                  source := some "Synthetic Fallback" } := by
          rw [getFallbackCore_some, ho, exceptBind_ok]
          rfl
        refine ⟨generate_fake_data lat lon now off d,
          get_fallback_data_of_ok lat lon (some items) now off d d2 _ hcore,
          rfl, ?_⟩
        intro items2 it h2 hfind
        injection h2 with h2
        subst h2
        rw [ho] at hfind
        cases hfind
      | some item =>
        have hlen := (hwf items hf item (hmem item rfl)).2
        have hcore : getFallbackCore lat lon (some items) now off d =
            .ok { tagWithName (get_location_name lat lon) item with
                  source := some "Synthetic Fallback" } := by
          rw [getFallbackCore_some, ho, exceptBind_ok]
          rfl
        refine ⟨item,
          get_fallback_data_of_ok lat lon (some items) now off d d2 _ hcore,
          hlen, ?_⟩
        intro items2 it h2 hfind
        injection h2 with h2
        subst h2
        rw [ho] at hfind
        exact Option.some.inj (Except.ok.inj hfind)
  obtain ⟨base, heq, hblen, hbit⟩ := hmain
  have hfetch : fetch_current_aqi none lat lon file now off d d2 =
      { tagWithName (get_location_name lat lon) base with
        source := some "Synthetic Fallback" } := heq
  refine ⟨?_, ?_, ?_, ?_, ?_⟩
  · rw [hfetch]
  · rw [hfetch]
    show (tagWithName (get_location_name lat lon) base).list.length = 1
    rw [tagWithName_list]
    exact hblen
  · intro n hn
    rw [hfetch]
    show (tagWithName (get_location_name lat lon) base).location_name = some n
    rw [hn]
    rfl
  · unfold get_location_name
    rw [Option.isSome_map', List.find?_isSome]
    simp only [decide_eq_true_eq]
  · intro items it h2 hfind
    rw [hfetch]
    show (tagWithName (get_location_name lat lon) base).list = it.list
    rw [tagWithName_list, hbit items it h2 hfind]

/-- Witness for `current_fetch_fallback`: no sample file on disk, a
coordinate within 0.1° of Beijing. -/
theorem current_fetch_fallback_witness :
    (∀ items, (none : Option (List Envelope)) = some items →
      ∀ it ∈ items, (∃ a b rest, it.coord = some (.tup (a :: b :: rest))) ∧
        it.list.length = 1) ∧
    (fetch_current_aqi none 39.95 116.40 none 0 0
        ⟨1/2, 0, 0, 0, 0, 0, 0, 0, 0⟩ ⟨1/2, 0, 0, 0, 0, 0, 0, 0, 0⟩).source =
      some "Synthetic Fallback" :=
  ⟨fun _ h => Option.noConfusion h,
   (current_fetch_fallback 39.95 116.40 none 0 0
     ⟨1/2, 0, 0, 0, 0, 0, 0, 0, 0⟩ ⟨1/2, 0, 0, 0, 0, 0, 0, 0, 0⟩
     (fun _ h => Option.noConfusion h)).1⟩

/-- The samples the program writes to the fallback file are well-formed in
the sense required by `current_fetch_fallback`: every sample has a
two-element coordinate array and exactly one observation. -/
theorem save_fake_samples_wf (now off : ℤ) (ds : ℕ → ℕ → Draws) :
    ∀ it ∈ save_fake_data_to_file_samples now off ds,
      (∃ a b rest, it.coord = some (.tup (a :: b :: rest))) ∧
      it.list.length = 1 := by
  intro it hit
  unfold save_fake_data_to_file_samples at hit
  rw [List.mem_flatMap] at hit
  obtain ⟨j, hj, hit2⟩ := hit
  rw [List.mem_range] at hj
  have hj5 : j < 5 := by simpa [knownLocations] using hj
  interval_cases j <;>
    simp only [knownLocations, List.getElem?_cons_zero, List.getElem?_cons_succ,
      List.mem_map, List.mem_range] at hit2 <;>
    obtain ⟨k, hk, rfl⟩ := hit2 <;>
    exact ⟨⟨_, _, [], rfl⟩, rfl⟩

/-- C4.  One location step of the startup backfill job fetches the window
(and persists it with the location name) exactly when the Store's count of
rows in the trailing window is strictly below 576; otherwise it performs
no fetch and no insert.  On upstream failure the persisted rows all carry
the location name, one row per hour of the window.  The job itself is the
five location steps in order. -/
theorem backfill_threshold (upstream : Option Envelope) (off : ℤ)
    (ds : ℕ → Draws) (start_time end_time : ℤ) (s : Store) (lat lon : ℚ)
    (name : String) :
    ((get_historical_from_db s lat lon start_time end_time).length < 576 →
      backfillStep upstream off ds start_time end_time s (lat, lon, name) =
        save_to_database s
          { fetch_historical_aqi upstream lat lon start_time end_time off ds
            with location_name := some name } (some name)) ∧
    (576 ≤ (get_historical_from_db s lat lon start_time end_time).length →
      backfillStep upstream off ds start_time end_time s (lat, lon, name) = s) ∧
    (upstream = none →
     (get_historical_from_db s lat lon start_time end_time).length < 576 →
     start_time ≤ end_time →
      ∃ rows,
        backfillStep upstream off ds start_time end_time s (lat, lon, name) =
          s ++ rows ∧
        rows.length = ((end_time - start_time) / 3600).toNat + 1 ∧
        ∀ r ∈ rows, r.location_name = some name) ∧
    (∀ (up : ℕ → Option Envelope) (ds2 : ℕ → ℕ → Draws) (s0 : Store),
      populate_initial_historical_data up off ds2 start_time end_time s0 =
        backfillStep (up 4) off (ds2 4) start_time end_time
          (backfillStep (up 3) off (ds2 3) start_time end_time
            (backfillStep (up 2) off (ds2 2) start_time end_time
              (backfillStep (up 1) off (ds2 1) start_time end_time
                (backfillStep (up 0) off (ds2 0) start_time end_time s0
                  (40.7128, -74.0060, "New York"))
                (51.5074, -0.1278, "London"))
              (35.6762, 139.6503, "Tokyo"))
            (39.9042, 116.4074, "Beijing"))
          (31.2304, 121.4737, "Shanghai")) := by
  have hstep : backfillStep upstream off ds start_time end_time s (lat, lon, name) =
      if (get_historical_from_db s lat lon start_time end_time).length < 576 then
        save_to_database s
          { fetch_historical_aqi upstream lat lon start_time end_time off ds
            with location_name := some name } (some name)
      else s := rfl
  have hpos : (get_historical_from_db s lat lon start_time end_time).length < 576 →
      backfillStep upstream off ds start_time end_time s (lat, lon, name) =
        save_to_database s
          { fetch_historical_aqi upstream lat lon start_time end_time off ds
            with location_name := some name } (some name) := by
    intro h
    rw [hstep, if_pos h]
  refine ⟨hpos, ?_, ?_, ?_⟩
  · intro h
    rw [hstep, if_neg (by omega)]
  · intro hup h hle
    subst hup
    rw [hpos h]
    set env : Envelope :=
      { fetch_historical_aqi none lat lon start_time end_time off ds with
        location_name := some name } with henv
    have hc : coordLatLon env.coord = .ok (some lat, some lon) := rfl
    have hsave := saveRows_of_coord s env (some name) lat lon hc
    refine ⟨env.list.map (rowOf lat lon (pickName env.location_name (some name))
      (env.source.getD "unknown")), ?_, ?_, ?_⟩
    · rw [save_to_database, hsave]
    · rw [List.length_map]
      have hmap := bulkLoop_map_dt lat lon off ds end_time
        (end_time + 1 - start_time).toNat start_time 0 rfl hle
      have hlen := congrArg List.length hmap
      rwa [List.length_map, List.length_map, List.length_range] at hlen
    · intro r hr
      rcases List.mem_map.mp hr with ⟨o, _, rfl⟩
      rfl
  · intro up ds2 s0
    rfl

/-- Witness for `backfill_threshold`: an empty store (0 rows, below the
576 threshold) over a one-hour window with a failing upstream. -/
theorem backfill_threshold_witness :
    ((get_historical_from_db [] 0 0 0 3600).length < 576 ∧
     (Option.none : Option Envelope) = none ∧ (0:ℤ) ≤ 3600) ∧
    (∃ rows,
      backfillStep none 0 (fun _ => ⟨1/2, 0, 0, 0, 0, 0, 0, 0, 0⟩) 0 3600 []
          (0, 0, "New York") = [] ++ rows ∧
      rows.length = (((3600:ℤ) - 0) / 3600).toNat + 1 ∧
      ∀ r ∈ rows, r.location_name = some "New York") := by
  have hlen : (get_historical_from_db [] 0 0 0 3600).length < 576 := by
    simp [get_historical_from_db]
  exact ⟨⟨hlen, rfl, by norm_num⟩,
    (backfill_threshold none 0 (fun _ => ⟨1/2, 0, 0, 0, 0, 0, 0, 0, 0⟩)
      0 3600 [] 0 0 "New York").2.2.1 rfl hlen (by norm_num)⟩
